import Mathlib

/-!
Verification of the q365 generic workflow engine
(`apps/workflow/models.py`, `apps/workflow/views.py`,
`apps/workflow/signals.py`, `apps/workflow/tasks.py`).

Entity snapshots and JSON condition/action payloads are modelled as
`Value`, a Python/JSON-like value tree (dicts are the mutual `Fields`
association list).  Per the navigation functions in `models.py` (which
treat dict-shaped data specially) and the spec's §9 design note, bound
entities are represented map-shaped; attribute access on a non-dict value
raises `AttributeError`, and dict lookup of a missing key yields `None`.
-/

namespace Q365

mutual

/-- Python/JSON value universe used for entity snapshots, condition
values and action parameters. -/
inductive Value where
  | vnull
  | vbool (b : Bool)
  | vint (n : Int)
  | vstr (s : String)
  | vdict (fs : Fields)

/-- The bindings of a Python dict, in insertion order, keys unique. -/
inductive Fields where
  | fnil
  | fcons (key : String) (val : Value) (rest : Fields)

end

deriving instance DecidableEq for Value
deriving instance DecidableEq for Fields
deriving instance DecidableEq for Except

/-- Python exceptions that the workflow code can raise or catch. -/
inductive PyError where
  | attributeError
  | typeError
  | valueError (msg : String)
  | integrityError
deriving DecidableEq

/-- Python `d.get(k)`: the binding of `k`, `None` when absent. -/
def Fields.get : Fields → String → Value
  | .fnil, _ => .vnull
  | .fcons k v rest, key => if k == key then v else rest.get key

/-- Python `d.get(k, default)`: `default` only when the key is absent. -/
def Fields.getD : Fields → String → Value → Value
  | .fnil, _, d => d
  | .fcons k v rest, key, d => if k == key then v else rest.getD key d

/-- Python `d[k] = v`: replace the binding of `k`, else append. -/
def Fields.set : Fields → String → Value → Fields
  | .fnil, key, v => .fcons key v .fnil
  | .fcons k v0 rest, key, v =>
    if k == key then .fcons key v rest else .fcons k v0 (rest.set key v)

/-- Whether a dict has no bindings. -/
def Fields.isEmpty : Fields → Bool
  | .fnil => true
  | .fcons _ _ _ => false

/-- Build a dict literal from an association list. -/
def Fields.ofList : List (String × Value) → Fields
  | [] => .fnil
  | (k, v) :: rest => .fcons k v (Fields.ofList rest)

/-- Python truthiness of a value (`bool(x)`). -/
def pyTruthy : Value → Bool
  | .vnull => false
  | .vbool b => b
  | .vint n => n != 0
  | .vstr s => !s.isEmpty
  | .vdict fs => !fs.isEmpty

/-- Python `==`.  Booleans compare equal to the corresponding integers
(`True == 1`); values of otherwise different types are unequal.  Dicts
compare structurally (all dict values in this development are built in
one fixed key order). -/
def pyEq : Value → Value → Bool
  | .vnull, .vnull => true
  | .vbool a, .vbool b => a == b
  | .vbool a, .vint n => (if a then (1 : Int) else 0) == n
  | .vint n, .vbool b => n == (if b then (1 : Int) else 0)
  | .vint a, .vint b => a == b
  | .vstr a, .vstr b => a == b
  | .vdict a, .vdict b => a == b
  | _, _ => false

/-- Python `str(x)` for the non-dict values that guard operands take;
`str` of a dict is its `repr`, abbreviated to a fixed tag since no guard
in this development stringifies a dict. -/
def pyStr : Value → String
  | .vnull => "None"
  | .vbool b => if b then "True" else "False"
  | .vint n => toString n
  | .vstr s => s
  | .vdict _ => "\x7b...\x7d"

/-- Python ordering comparison (`<=`, `<`, ...): numbers (including
booleans, which are ints in Python) compare numerically, strings
lexicographically, and any other combination raises `TypeError`. -/
def pyCompare (a b : Value) : Except PyError Ordering :=
  match a, b with
  | .vint x, .vint y => .ok (compare x y)
  | .vint x, .vbool y => .ok (compare x (if y then 1 else 0))
  | .vbool x, .vint y => .ok (compare (if x then (1 : Int) else 0) y)
  | .vbool x, .vbool y => .ok (compare (if x then (1 : Int) else 0) (if y then 1 else 0))
  | .vstr s, .vstr t => .ok (compare s t)
  | _, _ => .error .typeError

/-- Whether `cand` is a leading segment of `l`. -/
def leadsWith : List Char → List Char → Bool
  | [], _ => true
  | _ :: _, [] => false
  | n :: ns, h :: hs => n == h && leadsWith ns hs

/-- Whether `needle` occurs inside `hay` as a contiguous run. -/
def subOccurs (needle : List Char) : List Char → Bool
  | [] => leadsWith needle []
  | h :: hs => leadsWith needle (h :: hs) || subOccurs needle hs

/-- `needle` occurs as a substring of `hay` (Python `needle in hay`);
the empty string occurs in everything. -/
def strContainsSub (hay needle : String) : Bool :=
  subOccurs needle.data hay.data

/-- Python `v in s` for a string `s`: `TypeError` unless `v` is a string. -/
def pyInStr (v : Value) (hay : String) : Except PyError Bool :=
  match v with
  | .vstr s => .ok (strContainsSub hay s)
  | _ => .error .typeError

/-- Split a character list on `'.'`, keeping empty segments. -/
def splitCharsOnDot : List Char → List (List Char)
  | [] => [[]]
  | c :: rest =>
    let r := splitCharsOnDot rest
    if c == '.' then [] :: r
    else
      match r with
      | [] => [[c]]
      | g :: gs => (c :: g) :: gs

/-- Python `field_path.split('.')`: always at least one segment, empty
segments preserved (`"".split('.') == ['']`). -/
def splitPath (s : String) : List String :=
  (splitCharsOnDot s.data).map String.mk

/-- The dot-path walk shared by `Transition._get_field_value`,
`WorkflowTrigger._get_field_value` and the parent navigation of
`WorkflowInstance._update_field`: at each segment a dict is read with
`.get` (missing key gives `None`), any other value is read with `getattr`
(modelled as raising `AttributeError`), and a `None` result stops the
walk early, returning `None`. -/
def navigate : Value → List String → Except PyError Value
  | v, [] => .ok v
  | v, part :: rest =>
    match v with
    | .vdict fs =>
      if fs.get part = .vnull then .ok .vnull else navigate (fs.get part) rest
    | _ => .error .attributeError

/-- `Transition._get_field_value` (models.py:228): split the path on `.`
and walk it. -/
def get_field_value (inst : Value) (fieldPath : String) : Except PyError Value :=
  navigate inst (splitPath fieldPath)

/-- One arm of the operator `elif` chain in `Transition.can_transition`
(models.py:205-224): `true` means the condition did not force an early
`return False`; an unrecognized operator matches no arm and passes. -/
def condPasses (op : String) (fv v : Value) : Except PyError Bool :=
  if op == "equals" then .ok (pyEq fv v)
  else if op == "not_equals" then .ok (!pyEq fv v)
  else if op == "contains" then pyInStr v (pyStr fv)
  else if op == "not_contains" then (pyInStr v (pyStr fv)).map (!·)
  else if op == "greater_than" then (pyCompare fv v).map (· == .gt)
  else if op == "less_than" then (pyCompare fv v).map (· == .lt)
  else if op == "greater_equal" then (pyCompare fv v).map (· != .lt)
  else if op == "less_equal" then (pyCompare fv v).map (· != .gt)
  else if op == "is_empty" then .ok (!pyTruthy fv)
  else if op == "is_not_empty" then .ok (pyTruthy fv)
  else .ok true

/-- A guard clause as stored in the `conditions` JSON list: the values of
`condition.get('field')`, `condition.get('operator')`,
`condition.get('value')` (the last defaulting to `None` when absent). -/
structure Condition where
  field : Option String
  operator : Option String
  value : Value
deriving DecidableEq

/-- The condition loop of `Transition.can_transition` (models.py:187-226):
conditions with a falsy `field` or `operator` are skipped; the field walk
is wrapped in `try/except (AttributeError, IndexError, KeyError)` which
fails the whole check closed; operator arms run outside that `try` and
any exception they raise (`TypeError` from an ordering comparison or a
non-string `in`) propagates to the caller. -/
def evalConditions : List Condition → Value → Except PyError Bool
  | [], _ => .ok true
  | c :: rest, obj =>
    match c.field, c.operator with
    | some fp, some op =>
      if fp == "" || op == "" then evalConditions rest obj
      else
        match get_field_value obj fp with
        | .error _ => .ok false
        | .ok fv =>
          match condPasses op fv c.value with
          | .error e => .error e
          | .ok true => evalConditions rest obj
          | .ok false => .ok false
    | _, _ => evalConditions rest obj

/-- `WorkflowTrigger` (models.py:572): a standing rule that starts a
workflow on entity lifecycle events. -/
structure WorkflowTrigger where
  id : Nat
  workflow_id : Nat
  type : String
  field_name : String
  conditions : List Condition
  is_active : Bool
deriving DecidableEq

/-- The condition loop of `WorkflowTrigger.should_trigger`
(models.py:617-665).  It duplicates `Transition.can_transition` except
that, for an `on_field_change` trigger with an old snapshot, a condition
whose own field path has equal old and new values is skipped with
`continue` (so it counts as satisfied); an exception while reading the
old value is swallowed and the operator arm runs normally.  Note the
trigger's `field_name` is never consulted. -/
def checkTriggerConds (ttype : String) (old : Option Value) :
    List Condition → Value → Except PyError Bool
  | [], _ => .ok true
  | c :: rest, obj =>
    match c.field, c.operator with
    | some fp, some op =>
      if fp == "" || op == "" then checkTriggerConds ttype old rest obj
      else
        match get_field_value obj fp with
        | .error _ => .ok false
        | .ok fv =>
          let unchanged : Bool :=
            match old with
            | some oldObj =>
              if ttype == "on_field_change" then
                match get_field_value oldObj fp with
                | .ok ov => pyEq ov fv
                | .error _ => false
              else false
            | none => false
          if unchanged then checkTriggerConds ttype old rest obj
          else
            match condPasses op fv c.value with
            | .error e => .error e
            | .ok true => checkTriggerConds ttype old rest obj
            | .ok false => .ok false
    | _, _ => checkTriggerConds ttype old rest obj

/-- `WorkflowTrigger.should_trigger` (models.py:617). -/
def WorkflowTrigger.should_trigger (trig : WorkflowTrigger) (inst : Value)
    (old : Option Value) : Except PyError Bool :=
  checkTriggerConds trig.type old trig.conditions inst

/-- Stable insertion step for `sortByKey`. -/
def insertByKey {α : Type} (key : α → Nat) (x : α) : List α → List α
  | [] => [x]
  | y :: ys => if key x ≤ key y then x :: y :: ys else y :: insertByKey key x ys

/-- Stable sort by a `Nat` key, modelling Django `.order_by`. -/
def sortByKey {α : Type} (key : α → Nat) : List α → List α
  | [] => []
  | x :: xs => insertByKey key x (sortByKey key xs)

/-- `State` (models.py:104): a node of a workflow graph.  `id` is the
database primary key. -/
structure State where
  id : Nat
  workflow_id : Nat
  name : String
  is_initial : Bool
  is_final : Bool
  order : Nat
deriving DecidableEq

/-- One entry of a transition's `actions` JSON list, holding the keys
read by `WorkflowInstance._execute_action` (models.py:338-373). -/
structure Action where
  type : Option String
  field : Option String
  value : Value
  template : Option String
  recipients : List String
  title : Option String
deriving DecidableEq

/-- `Transition` (models.py:144): a guarded, effectful edge between two
states of one workflow. -/
structure Transition where
  id : Nat
  workflow_id : Nat
  from_state : State
  to_state : State
  conditions : List Condition
  actions : List Action
  order : Nat
deriving DecidableEq

/-- `Transition.can_transition` (models.py:187). -/
def Transition.can_transition (t : Transition) (obj : Value) : Except PyError Bool :=
  evalConditions t.conditions obj

/-- `Workflow` (models.py:11) together with its owned graph. -/
structure Workflow where
  id : Nat
  name : String
  status : String
  model : String
  states : List State
  transitions : List Transition
deriving DecidableEq

/-- `Workflow.get_initial_state` (models.py:61):
`self.states.filter(is_initial=True).first()`, under the `State` default
ordering `['workflow', 'order']`. -/
def Workflow.get_initial_state (w : Workflow) : Option State :=
  (sortByKey (fun s => s.order) (w.states.filter (fun s => s.is_initial))).head?

/-- `WorkflowHistory` (models.py:455): one realized transition of an
instance.  `triggered_at` is the injected clock reading. -/
structure WorkflowHistory where
  from_state : State
  to_state : State
  transition_id : Nat
  triggered_at : Nat
  notes : String
deriving DecidableEq

/-- `WorkflowInstance` (models.py:245).  Its history rows are kept here
in creation order (strictly increasing `triggered_at` for engine-built
instances).  The acting user bookkeeping (`started_by`, `triggered_by`)
is not modelled; no claim mentions it. -/
structure WorkflowInstance where
  id : Nat
  workflow : Workflow
  content_type : Nat
  object_id : Nat
  content_object : Value
  current_state : Option State
  status : String
  completed_at : Option Nat
  data : Value
  history : List WorkflowHistory
deriving DecidableEq

/-- `WorkflowInstance.get_available_transitions` (models.py:298):
transitions of the owning workflow whose `from_state` is the current
state (a foreign-key comparison, hence by state id), ordered by `order`.
Empty when `current_state` is null.  The instance `status` is not
consulted. -/
def WorkflowInstance.get_available_transitions (inst : WorkflowInstance) : List Transition :=
  match inst.current_state with
  | none => []
  | some cs =>
    sortByKey (fun t => t.order)
      (inst.workflow.transitions.filter (fun t => t.from_state.id == cs.id))

/-- The navigation-and-set of `WorkflowInstance._update_field`
(models.py:375-396), written functionally: walk the parent segments
(dict `.get`, `None` breaks the walk, `getattr` on a non-dict raises
`AttributeError`); if the walk ended at `None` nothing is written,
otherwise the leaf is set on the reached dict (a reached primitive would
be a `setattr` on it, modelled as `AttributeError`). -/
def updateSegments (target : Value) (parents : List String) (leaf : String) (v : Value) :
    Except PyError Value :=
  match parents with
  | [] =>
    match target with
    | .vnull => .ok .vnull
    | .vdict fs => .ok (.vdict (fs.set leaf v))
    | _ => .error .attributeError
  | p :: ps =>
    match target with
    | .vdict fs =>
      if fs.get p = .vnull then .ok target
      else (updateSegments (fs.get p) ps leaf v).map (fun c => .vdict (fs.set p c))
    | _ => .error .attributeError

/-- `WorkflowInstance._update_field` (models.py:375): split the path, the
last segment is the leaf, the rest is the parent walk. -/
def update_field (obj : Value) (fieldPath : String) (v : Value) : Except PyError Value :=
  match (splitPath fieldPath).getLast? with
  | some leaf => updateSegments obj (splitPath fieldPath).dropLast leaf v
  | none => .ok obj

/-- External side effects dispatched by `_execute_action`; recipient
resolution and the sinks themselves are collaborator capabilities. -/
inductive Effect where
  | entitySaved (snapshot : Value)
  | notificationSent (template : String) (recipients : List String)
  | taskCreated (title : String)
  | emailSent (template : String) (recipients : List String)
deriving DecidableEq

/-- `WorkflowInstance._execute_action` (models.py:338): dispatch on the
action's `type`; `update_field` mutates and saves the bound entity,
the other types fire a sink when their required parameters are truthy
and are silently skipped otherwise; an unknown or missing type does
nothing. -/
def execute_action (obj : Value) (a : Action) : Except PyError (Value × List Effect) :=
  match a.type with
  | some t =>
    if t == "update_field" then
      match a.field with
      | some fp =>
        if fp == "" then .ok (obj, [])
        else
          match update_field obj fp a.value with
          | .error e => .error e
          | .ok obj2 => .ok (obj2, [.entitySaved obj2])
      | none => .ok (obj, [])
    else if t == "send_notification" then
      match a.template with
      | some tpl =>
        if tpl != "" && !a.recipients.isEmpty then
          .ok (obj, [.notificationSent tpl a.recipients])
        else .ok (obj, [])
      | none => .ok (obj, [])
    else if t == "create_task" then
      match a.title with
      | some ttl => if ttl != "" then .ok (obj, [.taskCreated ttl]) else .ok (obj, [])
      | none => .ok (obj, [])
    else if t == "send_email" then
      match a.template with
      | some tpl =>
        if tpl != "" && !a.recipients.isEmpty then
          .ok (obj, [.emailSent tpl a.recipients])
        else .ok (obj, [])
      | none => .ok (obj, [])
    else .ok (obj, [])
  | none => .ok (obj, [])

/-- The action loop of `transition_to`: actions run sequentially; an
exception stops the loop, keeping the entity mutations and effects of
the completed actions (each `update_field` saved the entity already). -/
def run_actions (obj : Value) : List Action → Value × List Effect × Option PyError
  | [] => (obj, [], none)
  | a :: rest =>
    match execute_action obj a with
    | .error e => (obj, [], some e)
    | .ok (obj2, effs) =>
      let r := run_actions obj2 rest
      (r.1, effs ++ r.2.1, r.2.2)

/-- `WorkflowInstance.transition_to` (models.py:307): re-check the guard
(`ValueError` when unmet, any evaluator exception propagates), run the
actions, then set `current_state`, flip to `completed` with
`completed_at` when the new state is final, save, and append a history
row.  The returned triple is the persisted instance, the external
effects, and the exception if one escaped.  The instance `status` is
never read. -/
def WorkflowInstance.transition_to (inst : WorkflowInstance) (t : Transition) (now : Nat) :
    WorkflowInstance × List Effect × Option PyError :=
  match t.can_transition inst.content_object with
  | .error e => (inst, [], some e)
  | .ok false => (inst, [], some (.valueError "Transition conditions not met"))
  | .ok true =>
    let r := run_actions inst.content_object t.actions
    match r.2.2 with
    | some e => ({ inst with content_object := r.1 }, r.2.1, some e)
    | none =>
      ({ inst with
          content_object := r.1
          current_state := some t.to_state
          status := if t.to_state.is_final then "completed" else inst.status
          completed_at := if t.to_state.is_final then some now else inst.completed_at
          history := inst.history ++
            [{ from_state := t.from_state, to_state := t.to_state,
               transition_id := t.id, triggered_at := now, notes := "" }] },
        r.2.1, none)

/-- Outcome of the `transition` API action (views.py:144). -/
inductive TransitionResponse where
  | success
  | unavailable
  | conditionsNotMet (msg : String)
  | serverError (e : PyError)
deriving DecidableEq

/-- The notes amendment of views.py:179-185: the history row found by
`instance.history.filter(transition=...)` under the `-triggered_at`
default ordering, i.e. the newest matching row, gets its notes set. -/
def setNotesAtLastMatch : List WorkflowHistory → Nat → String → List WorkflowHistory
  | [], _, _ => []
  | r :: rest, tid, notes =>
    if rest.any (fun x => x.transition_id == tid) then r :: setNotesAtLastMatch rest tid notes
    else if r.transition_id == tid then { r with notes := notes } :: rest
    else r :: rest

/-- `WorkflowInstanceViewSet.transition` (views.py:144): reject with 400
when the transition is not among the available ones (a Django model
membership test, hence by primary key); run `transition_to`, mapping
`ValueError` to a 400 and letting any other exception escape as a 500;
on success amend the notes of the just-created history row. -/
def view_transition (inst : WorkflowInstance) (t : Transition) (notes : String) (now : Nat) :
    WorkflowInstance × List Effect × TransitionResponse :=
  if (inst.get_available_transitions).any (fun x => x.id == t.id) then
    let r := inst.transition_to t now
    match r.2.2 with
    | some (.valueError m) => (r.1, r.2.1, .conditionsNotMet m)
    | some e => (r.1, r.2.1, .serverError e)
    | none =>
      ({ r.1 with history := setNotesAtLastMatch r.1.history t.id notes }, r.2.1, .success)
  else (inst, [], .unavailable)

/-- `WorkflowInstanceViewSet.cancel` (views.py:195): set the status to
`cancelled` unconditionally; `current_state` and history are untouched. -/
def view_cancel (inst : WorkflowInstance) : WorkflowInstance :=
  { inst with status := "cancelled" }

/-- The `WorkflowInstance` table.  `next_id` is the primary-key
sequence. -/
structure Db where
  next_id : Nat
  instances : List WorkflowInstance
deriving DecidableEq

/-- Persist an updated instance row (matched by primary key). -/
def dbSave (db : Db) (inst : WorkflowInstance) : Db :=
  { db with instances := db.instances.map (fun j => if j.id == inst.id then inst else j) }

/-- The row `get_or_create` inserts on a miss: an `active` instance with
null `current_state`, built from the `defaults`. -/
def freshInstance (db : Db) (w : Workflow) (ct oid : Nat) (obj startData : Value) :
    WorkflowInstance :=
  { id := db.next_id, workflow := w, content_type := ct, object_id := oid,
    content_object := obj, current_state := none, status := "active",
    completed_at := none, data := startData, history := [] }

/-- `WorkflowInstance.objects.get_or_create(workflow=..., content_type=...,
object_id=..., defaults=...)` as used by views.py:94, signals.py:39 and
models.py:768: look up by the three key fields; on a miss, insert a fresh
`active` instance with null `current_state` — unless the
`unique_together = ('content_type', 'object_id')` constraint
(models.py:293) is violated, which raises `IntegrityError` and leaves
the table unchanged. -/
def get_or_create (db : Db) (w : Workflow) (ct oid : Nat) (obj startData : Value) :
    Except PyError (Db × WorkflowInstance × Bool) :=
  match db.instances.find? (fun i =>
      i.workflow.id == w.id && i.content_type == ct && i.object_id == oid) with
  | some i => .ok (db, i, false)
  | none =>
    if db.instances.any (fun i => i.content_type == ct && i.object_id == oid) then
      .error .integrityError
    else
      .ok ({ next_id := db.next_id + 1,
             instances := db.instances ++ [freshInstance db w ct oid obj startData] },
           freshInstance db w ct oid obj startData, true)

/-- `WorkflowViewSet.start` (views.py:93-112): `get_or_create`, then —
only for a freshly created instance and only when the workflow has an
initial state — assign `current_state` and save.  A missing initial
state is not an error: the instance is created and returned with a null
`current_state`. -/
def view_start (db : Db) (w : Workflow) (ct oid : Nat) (obj startData : Value) :
    Except PyError (Db × WorkflowInstance × Bool) :=
  match get_or_create db w ct oid obj startData with
  | .error e => .error e
  | .ok (db1, inst, created) =>
    if created then
      match w.get_initial_state with
      | some s0 =>
        let inst2 := { inst with current_state := some s0 }
        .ok (dbSave db1 inst2, inst2, true)
      | none => .ok (db1, inst, true)
    else .ok (db1, inst, false)

/-- One trigger's turn inside `handle_workflow_triggers`
(signals.py:27-46): when `should_trigger` passes, `get_or_create` the
instance (with empty seed data); no initial state is ever assigned on
this path. -/
def signal_start (db : Db) (trig : WorkflowTrigger) (w : Workflow) (ct oid : Nat)
    (newObj : Value) (old : Option Value) : Except PyError Db :=
  match trig.should_trigger newObj old with
  | .error e => .error e
  | .ok false => .ok db
  | .ok true =>
    match get_or_create db w ct oid newObj (.vdict .fnil) with
    | .error e => .error e
    | .ok (db1, _, _) => .ok db1

/-- `ScheduledWorkflow` (models.py:684). -/
structure ScheduledWorkflow where
  id : Nat
  workflow : Workflow
  schedule_type : String
  scheduled_date : Nat
  parameters : Fields
  status : String
  last_run : Option Nat
  next_run : Option Nat
deriving DecidableEq

/-- `timedelta(days=1)`, in seconds. -/
def oneDay : Nat := 86400

/-- `timedelta(weeks=1)`, in seconds. -/
def oneWeek : Nat := 7 * 86400

/-- `timedelta(days=30)`, in seconds. -/
def thirtyDays : Nat := 30 * 86400

/-- The per-entity loop of `ScheduledWorkflow.run` (models.py:766-783):
`get_or_create` each matching entity's instance and, for fresh
instances, assign the workflow's initial state when it has one.  An
exception stops the loop; earlier rows stay committed. -/
def scheduledLoop (w : Workflow) (ct : Nat) (seed : Value) :
    Db → List (Nat × Value) → Db × Option PyError
  | db, [] => (db, none)
  | db, (oid, obj) :: rest =>
    match get_or_create db w ct oid obj seed with
    | .error e => (db, some e)
    | .ok (db1, inst, created) =>
      let db2 :=
        if created then
          match w.get_initial_state with
          | some s0 => dbSave db1 { inst with current_state := some s0 }
          | none => db1
        else db1
      scheduledLoop w ct seed db2 rest

/-- `ScheduledWorkflow.run` (models.py:751-808): set `running` and
`last_run = now`, run the per-entity loop (the matched `objects` stand
for `model_class.objects.filter(**filters)`), then on success set
`status = 'completed'` and, for daily/weekly/monthly schedules, set
`next_run = last_run + 1 day / 1 week / 30 days`; on an exception set
`status = 'failed'` (re-raising it). -/
def ScheduledWorkflow.run (sw : ScheduledWorkflow) (db : Db) (ct : Nat)
    (objects : List (Nat × Value)) (now : Nat) :
    ScheduledWorkflow × Db × Option PyError :=
  let sw1 := { sw with status := "running", last_run := some now }
  let r := scheduledLoop sw1.workflow ct (sw1.parameters.getD "data" (.vdict .fnil)) db objects
  match r.2 with
  | some e => ({ sw1 with status := "failed" }, r.1, some e)
  | none =>
    let sw2 := { sw1 with status := "completed" }
    let sw3 :=
      if sw2.schedule_type == "daily" then { sw2 with next_run := some (now + oneDay) }
      else if sw2.schedule_type == "weekly" then { sw2 with next_run := some (now + oneWeek) }
      else if sw2.schedule_type == "monthly" then { sw2 with next_run := some (now + thirtyDays) }
      else sw2
    (sw3, r.1, none)

/-- History rows chain from the creation state to the current state:
each row's `from_state` is the previous row's `to_state` (the creation
state for the first row), and the last row's `to_state` is the current
state.  States are compared by primary key, which is how the foreign
keys of `WorkflowHistory` identify them.  `start`/`cur` are the state
ids at creation and now (`none` for a null `current_state`). -/
def chainOk (start cur : Option Nat) : List WorkflowHistory → Bool
  | [] => cur == start
  | r :: rest => (some r.from_state.id == start) && chainOk (some r.to_state.id) cur rest

/-- The list is strictly increasing. -/
def strictlyIncreasing : List Nat → Bool
  | [] => true
  | [_] => true
  | a :: b :: rest => a.blt b && strictlyIncreasing (b :: rest)

/-- Instances reachable through the engine's API: created by `start` (or
a trigger/scheduler, which may leave `current_state` null), then evolved
by the `transition` endpoint under a strictly advancing clock, the
`cancel` endpoint, and arbitrary external writes to the bound entity.
`s0` is the `current_state` assigned at creation.  `hpk` states that the
`Transition` record passed to the endpoint is consistent with the
primary keys of the workflow's transition table — in the database the
endpoint's `Transition.objects.get(id=...)` returns that very row. -/
inductive Reachable (w : Workflow) (s0 : Option State) : WorkflowInstance → Prop where
  | started (id ct oid : Nat) (obj d : Value)
      (hs0 : s0 = w.get_initial_state ∨ s0 = none) :
      Reachable w s0
        { id := id, workflow := w, content_type := ct, object_id := oid,
          content_object := obj, current_state := s0, status := "active",
          completed_at := none, data := d, history := [] }
  | step (inst : WorkflowInstance) (t : Transition) (notes : String) (now : Nat)
      (hr : Reachable w s0 inst)
      (hpk : ∀ x ∈ inst.workflow.transitions, x.id = t.id → x = t)
      (hclock : ∀ r ∈ inst.history, r.triggered_at < now)
      (hok : (view_transition inst t notes now).2.2 = .success) :
      Reachable w s0 (view_transition inst t notes now).1
  | cancel (inst : WorkflowInstance) (hr : Reachable w s0 inst) :
      Reachable w s0 (view_cancel inst)
  | entityWritten (inst : WorkflowInstance) (o : Value) (hr : Reachable w s0 inst) :
      Reachable w s0 { inst with content_object := o }

theorem mem_insertByKey {α : Type} (key : α → Nat) (x a : α) (l : List α) :
    a ∈ insertByKey key x l ↔ a = x ∨ a ∈ l := by
  induction l with
  | nil => simp [insertByKey]
  | cons y ys ih =>
    by_cases h : key x ≤ key y
    · simp [insertByKey, h]
    · simp only [insertByKey, if_neg h, List.mem_cons, ih]
      tauto

theorem mem_sortByKey {α : Type} (key : α → Nat) (a : α) (l : List α) :
    a ∈ sortByKey key l ↔ a ∈ l := by
  induction l with
  | nil => simp [sortByKey]
  | cons y ys ih => simp [sortByKey, mem_insertByKey, ih]

theorem chainOk_append (start : Option Nat) (c : Nat) (rows : List WorkflowHistory)
    (r : WorkflowHistory) (hc : chainOk start (some c) rows = true)
    (hf : r.from_state.id = c) :
    chainOk start (some r.to_state.id) (rows ++ [r]) = true := by
  induction rows generalizing start with
  | nil =>
    simp only [chainOk, beq_iff_eq] at hc
    simp [chainOk, hc, hf]
  | cons r0 rest ih =>
    simp only [chainOk, Bool.and_eq_true] at hc
    simp only [List.cons_append, chainOk, Bool.and_eq_true]
    exact ⟨hc.1, ih _ hc.2⟩

theorem chainOk_setNotes (start cur : Option Nat) (rows : List WorkflowHistory)
    (tid : Nat) (n : String) :
    chainOk start cur (setNotesAtLastMatch rows tid n) = chainOk start cur rows := by
  induction rows generalizing start with
  | nil => rfl
  | cons r rest ih =>
    by_cases h1 : rest.any (fun x => x.transition_id == tid)
    · simp [setNotesAtLastMatch, h1, chainOk, ih]
    · by_cases h2 : r.transition_id == tid
      · simp [setNotesAtLastMatch, h1, h2, chainOk]
      · simp [setNotesAtLastMatch, h1, h2]

theorem timesOf_setNotes (rows : List WorkflowHistory) (tid : Nat) (n : String) :
    (setNotesAtLastMatch rows tid n).map (fun r => r.triggered_at) =
      rows.map (fun r => r.triggered_at) := by
  induction rows with
  | nil => rfl
  | cons r rest ih =>
    by_cases h1 : rest.any (fun x => x.transition_id == tid)
    · simp [setNotesAtLastMatch, h1, ih]
    · by_cases h2 : r.transition_id == tid
      · simp [setNotesAtLastMatch, h1, h2]
      · simp [setNotesAtLastMatch, h1, h2]

theorem strictlyIncreasing_append (l : List Nat) (n : Nat)
    (h : strictlyIncreasing l = true) (hb : ∀ x ∈ l, x < n) :
    strictlyIncreasing (l ++ [n]) = true := by
  induction l with
  | nil => simp [strictlyIncreasing]
  | cons a rest ih =>
    cases rest with
    | nil =>
      simp only [List.cons_append, List.nil_append, strictlyIncreasing, Bool.and_eq_true]
      exact ⟨Nat.blt_eq.mpr (hb a (by simp)), trivial⟩
    | cons b rest2 =>
      simp only [strictlyIncreasing, Bool.and_eq_true] at h
      have := ih h.2 (fun x hx => hb x (List.mem_cons_of_mem a hx))
      simp only [List.cons_append, strictlyIncreasing, Bool.and_eq_true] at this ⊢
      exact ⟨h.1, this⟩

/-- C4: for every reachable WorkflowInstance, its history rows (kept in
`triggered_at` order, which the second conjunct shows is strictly
increasing) form a path through the owning workflow's graph: the first
row leaves the state assigned at creation, each subsequent row leaves
the previous row's `to_state`, and the last row enters the current
state (for an empty history the current state is still the creation
state). -/
theorem c4_history_replays_path (w : Workflow) (s0 : Option State)
    (inst : WorkflowInstance) (h : Reachable w s0 inst) :
    chainOk (s0.map (fun s => s.id)) (inst.current_state.map (fun s => s.id))
        inst.history = true
    ∧ strictlyIncreasing (inst.history.map (fun r => r.triggered_at)) = true := by
  induction h with
  | started id ct oid obj d hs0 => simp [chainOk, strictlyIncreasing]
  | cancel inst hr ih => simpa [view_cancel] using ih
  | entityWritten inst o hr ih => simpa using ih
  | step inst t notes now hr hpk hclock hok ih =>
    by_cases hmem : (inst.get_available_transitions).any (fun x => x.id == t.id) = true
    · have hmem2 := hmem
      rw [List.any_eq_true] at hmem2
      obtain ⟨x, hxm, hxid⟩ := hmem2
      cases hcs : inst.current_state with
      | none =>
        simp only [WorkflowInstance.get_available_transitions, hcs] at hxm
        simp at hxm
      | some cs =>
        simp only [WorkflowInstance.get_available_transitions, hcs] at hxm
        rw [mem_sortByKey, List.mem_filter] at hxm
        obtain ⟨hxt, hxfrom⟩ := hxm
        have hxeq : x = t := hpk x hxt (by simpa using hxid)
        have ht_from : t.from_state.id = cs.id := by
          rw [← hxeq]; simpa using hxfrom
        cases herr : (inst.transition_to t now).2.2 with
        | some e => cases e <;> simp [view_transition, hmem, herr] at hok
        | none =>
          have hres : (view_transition inst t notes now).1 =
              { (inst.transition_to t now).1 with
                history :=
                  setNotesAtLastMatch (inst.transition_to t now).1.history t.id notes } := by
            simp [view_transition, hmem, herr]
          cases hcan : t.can_transition inst.content_object with
          | error e => simp [WorkflowInstance.transition_to, hcan] at herr
          | ok b =>
            cases b with
            | false => simp [WorkflowInstance.transition_to, hcan] at herr
            | true =>
              cases hact : (run_actions inst.content_object t.actions).2.2 with
              | some e => simp [WorkflowInstance.transition_to, hcan, hact] at herr
              | none =>
                have hinst1 : (inst.transition_to t now).1 =
                    { inst with
                      content_object := (run_actions inst.content_object t.actions).1,
                      current_state := some t.to_state,
                      status := if t.to_state.is_final then "completed" else inst.status,
                      completed_at :=
                        if t.to_state.is_final then some now else inst.completed_at,
                      history := inst.history ++
                        [{ from_state := t.from_state, to_state := t.to_state,
                           transition_id := t.id, triggered_at := now, notes := "" }] } := by
                  simp [WorkflowInstance.transition_to, hcan, hact]
                rw [hres, hinst1]
                have ihc := ih.1
                rw [hcs] at ihc
                constructor
                · simp only [chainOk_setNotes, Option.map_some]
                  exact chainOk_append _ cs.id inst.history
                    { from_state := t.from_state, to_state := t.to_state,
                      transition_id := t.id, triggered_at := now, notes := "" }
                    (by simpa using ihc) ht_from
                · simp only [timesOf_setNotes, List.map_append, List.map_cons, List.map_nil]
                  refine strictlyIncreasing_append _ now ih.2 ?_
                  intro a ha
                  rw [List.mem_map] at ha
                  obtain ⟨r0, hr0, hr0t⟩ := ha
                  exact hr0t ▸ hclock r0 hr0
    · simp [view_transition, hmem] at hok

theorem fields_set_get_self : (fs : Fields) → (p : String) → fs.get p ≠ .vnull →
    fs.set p (fs.get p) = fs
  | .fnil, p, h => by simp [Fields.get] at h
  | .fcons k v rest, p, h => by
    by_cases hk : (k == p) = true
    · have hk2 : k = p := by simpa using hk
      simp [Fields.get, Fields.set, hk, hk2]
    · have h2 : rest.get p ≠ .vnull := by
        simpa [Fields.get, hk] using h
      simp [Fields.get, Fields.set, hk, fields_set_get_self rest p h2]

theorem updateSegments_of_navigate_null (parents : List String) (target : Value)
    (leaf : String) (v : Value) (h : navigate target parents = .ok .vnull) :
    updateSegments target parents leaf v = .ok target := by
  induction parents generalizing target with
  | nil =>
    simp only [navigate, Except.ok.injEq] at h
    subst h
    rfl
  | cons p ps ih =>
    cases target with
    | vdict fs =>
      by_cases hg : fs.get p = .vnull
      · simp [updateSegments, navigate, hg]
      · simp only [navigate, hg, if_false] at h
        simp only [updateSegments, hg, if_false, ih (fs.get p) h, Except.map,
          Except.ok.injEq, fields_set_get_self fs p hg]
    | vnull => simp [navigate] at h
    | vbool b => simp [navigate] at h
    | vint n => simp [navigate] at h
    | vstr s => simp [navigate] at h

theorem update_field_noop_of_parent_null (obj : Value) (fp : String) (v : Value)
    (h : navigate obj (splitPath fp).dropLast = .ok .vnull) :
    update_field obj fp v = .ok obj := by
  unfold update_field
  cases hl : (splitPath fp).getLast? with
  | none => rfl
  | some leaf => exact updateSegments_of_navigate_null _ _ _ _ h

/-- C1 (amended): neither `availableTransitions` nor the outcome of the
`transition` endpoint depends on the instance's lifecycle `status` — a
terminal (`completed`/`cancelled`) instance behaves exactly like an
`active` one; `availableTransitions` is empty only when `current_state`
is null. -/
theorem c1_transitions_ignore_status (inst : WorkflowInstance) (s : String)
    (t : Transition) (n : String) (now : Nat) :
    ({ inst with status := s } : WorkflowInstance).get_available_transitions
        = inst.get_available_transitions
    ∧ ({ inst with current_state := none } : WorkflowInstance).get_available_transitions = []
    ∧ (view_transition { inst with status := s } t n now).2.2
        = (view_transition inst t n now).2.2 := by
  refine ⟨rfl, rfl, ?_⟩
  by_cases hmem : (inst.get_available_transitions).any (fun x => x.id == t.id) = true
  · have hmem2 : (({ inst with status := s } :
        WorkflowInstance).get_available_transitions).any (fun x => x.id == t.id) = true := hmem
    simp only [view_transition, hmem, hmem2, if_true]
    cases hcan : t.can_transition inst.content_object with
    | error e => cases e <;> simp [WorkflowInstance.transition_to, hcan]
    | ok b =>
      cases b with
      | false => simp [WorkflowInstance.transition_to, hcan]
      | true =>
        cases hact : (run_actions inst.content_object t.actions).2.2 with
        | some e => cases e <;> simp [WorkflowInstance.transition_to, hcan, hact]
        | none => simp [WorkflowInstance.transition_to, hcan, hact]
  · have hmem2 : ¬ (({ inst with status := s } :
        WorkflowInstance).get_available_transitions).any (fun x => x.id == t.id) = true := hmem
    simp [view_transition, hmem, hmem2]

/-- C2: when the guard conditions evaluate to false on the bound entity
snapshot, `transition_to` raises `ValueError` (the engine's
guard-not-satisfied rejection) before any effect: the instance — its
`current_state`, status and history — is returned unchanged and no
external effect is emitted. -/
theorem c2_guard_false_no_effect (inst : WorkflowInstance) (t : Transition) (now : Nat)
    (h : t.can_transition inst.content_object = .ok false) :
    inst.transition_to t now =
      (inst, [], some (.valueError "Transition conditions not met")) := by
  simp [WorkflowInstance.transition_to, h]

/-- C3 (amended): an `update_field` action whose parent path resolves to
`None` on the bound entity is silently skipped — no error is raised, the
entity is saved unchanged, and the transition still completes: the state
advances to `to_state` and a history row is appended. -/
theorem c3_unresolved_update_field_skipped (inst : WorkflowInstance) (t : Transition)
    (now : Nat) (a : Action) (fp : String)
    (hguard : t.can_transition inst.content_object = .ok true)
    (hacts : t.actions = [a])
    (hty : a.type = some "update_field")
    (hfield : a.field = some fp)
    (hfp : fp ≠ "")
    (hnav : navigate inst.content_object (splitPath fp).dropLast = .ok .vnull) :
    inst.transition_to t now =
      ({ inst with
          current_state := some t.to_state,
          status := if t.to_state.is_final then "completed" else inst.status,
          completed_at := if t.to_state.is_final then some now else inst.completed_at,
          history := inst.history ++
            [{ from_state := t.from_state, to_state := t.to_state,
               transition_id := t.id, triggered_at := now, notes := "" }] },
        [.entitySaved inst.content_object], none) := by
  have hexec : execute_action inst.content_object a =
      .ok (inst.content_object, [.entitySaved inst.content_object]) := by
    have hfp2 : (fp == "") = false := by simpa using hfp
    simp only [execute_action, hty, hfield, hfp2, Bool.false_eq_true, if_false,
      update_field_noop_of_parent_null inst.content_object fp a.value hnav]
    rfl
  have hrun : run_actions inst.content_object t.actions =
      (inst.content_object, [.entitySaved inst.content_object], none) := by
    rw [hacts]
    simp [run_actions, hexec]
  simp [WorkflowInstance.transition_to, hguard, hrun]

/-! Concrete fixtures: the spec's "Ticket Escalation" scenario workflow
(§8) — states New (initial) and Escalated, a guarded escalation
transition, an unguarded one, and one carrying an `update_field` action
on a non-existent path. -/

def stNew : State :=
  { id := 1, workflow_id := 1, name := "New", is_initial := true, is_final := false,
    order := 0 }

def stEscalated : State :=
  { id := 2, workflow_id := 1, name := "Escalated", is_initial := false, is_final := false,
    order := 1 }

def trEscalate : Transition :=
  { id := 1, workflow_id := 1, from_state := stNew, to_state := stEscalated,
    conditions :=
      [{ field := some "priority", operator := some "equals", value := .vstr "urgent" }],
    actions := [], order := 0 }

def trFree : Transition :=
  { id := 2, workflow_id := 1, from_state := stNew, to_state := stEscalated,
    conditions := [], actions := [], order := 1 }

def updMissing : Action :=
  { type := some "update_field", field := some "missing.leaf", value := .vint 1,
    template := none, recipients := [], title := none }

def trUpdate : Transition :=
  { id := 3, workflow_id := 1, from_state := stNew, to_state := stEscalated,
    conditions := [], actions := [updMissing], order := 2 }

def wfTicket : Workflow :=
  { id := 1, name := "Ticket Escalation", status := "active",
    model := "service.serviceticket", states := [stNew, stEscalated],
    transitions := [trEscalate, trFree, trUpdate] }

def lowTicket : Value := .vdict (.fcons "priority" (.vstr "low") .fnil)

def activeTicketInst : WorkflowInstance :=
  { id := 1, workflow := wfTicket, content_type := 1, object_id := 1,
    content_object := lowTicket, current_state := some stNew, status := "active",
    completed_at := none, data := .vdict .fnil, history := [] }

def cancelledTicketInst : WorkflowInstance :=
  { activeTicketInst with status := "cancelled" }

/-- C1 (counterexample): a cancelled instance whose `current_state` is
New still lists the outgoing transitions, and the `transition` endpoint
applies one successfully — advancing the state and appending a history
row — contradicting the claim that terminal instances have no available
transitions and accept none. -/
theorem c1_counterexample :
    cancelledTicketInst.status = "cancelled"
    ∧ cancelledTicketInst.get_available_transitions ≠ []
    ∧ (view_transition cancelledTicketInst trFree "" 5).2.2 = .success
    ∧ (view_transition cancelledTicketInst trFree "" 5).1.current_state = some stEscalated
    ∧ (view_transition cancelledTicketInst trFree "" 5).1.history.length = 1 := by decide

/-- Witness for C2: the spec's scenario — a ticket with
`priority = "low"` against the `priority == "urgent"` guard: the guard
evaluates false and the transition is rejected with no effect. -/
theorem c2_witness :
    trEscalate.can_transition activeTicketInst.content_object = .ok false
    ∧ activeTicketInst.transition_to trEscalate 9 =
        (activeTicketInst, [], some (.valueError "Transition conditions not met")) :=
  ⟨by decide, c2_guard_false_no_effect activeTicketInst trEscalate 9 (by decide)⟩

/-- C3 (counterexample): an `update_field` action on the non-existent
path `missing.leaf` does not fail the transition: the endpoint reports
success, the state advances, a history row is appended, and the entity
is saved unchanged — contradicting the claimed `ActionError` rollback. -/
theorem c3_counterexample :
    (view_transition activeTicketInst trUpdate "" 7).2.2 = .success
    ∧ (view_transition activeTicketInst trUpdate "" 7).1.current_state = some stEscalated
    ∧ (view_transition activeTicketInst trUpdate "" 7).1.history.length = 1
    ∧ (view_transition activeTicketInst trUpdate "" 7).1.content_object = lowTicket := by
  decide

/-- Witness for the amended C3 at the scenario fixture. -/
theorem c3_witness :
    trUpdate.can_transition activeTicketInst.content_object = .ok true
    ∧ activeTicketInst.transition_to trUpdate 7 =
      ({ activeTicketInst with
          current_state := some trUpdate.to_state,
          status := if trUpdate.to_state.is_final then "completed"
                    else activeTicketInst.status,
          completed_at := if trUpdate.to_state.is_final then some 7
                          else activeTicketInst.completed_at,
          history := activeTicketInst.history ++
            [{ from_state := trUpdate.from_state, to_state := trUpdate.to_state,
               transition_id := trUpdate.id, triggered_at := 7, notes := "" }] },
        [.entitySaved activeTicketInst.content_object], none) :=
  ⟨by decide,
    c3_unresolved_update_field_skipped activeTicketInst trUpdate 7 updMissing "missing.leaf"
      (by decide) (by decide) (by decide) (by decide) (by decide) (by decide)⟩

/-- Witness for C4: start an instance in New and apply the unguarded
transition once; the resulting single-row history chains from New to
Escalated, the current state. -/
theorem c4_witness :
    chainOk ((some stNew).map (fun s => s.id))
        (((view_transition activeTicketInst trFree "ok" 3).1.current_state).map
          (fun s => s.id))
        (view_transition activeTicketInst trFree "ok" 3).1.history = true
    ∧ strictlyIncreasing
        ((view_transition activeTicketInst trFree "ok" 3).1.history.map
          (fun r => r.triggered_at)) = true :=
  c4_history_replays_path wfTicket (some stNew) _
    (Reachable.step activeTicketInst trFree "ok" 3
      (Reachable.started 1 1 1 lowTicket (.vdict .fnil) (Or.inl (by decide)))
      (by decide) (by decide) (by decide))

def trigFieldChange : WorkflowTrigger :=
  { id := 1, workflow_id := 1, type := "on_field_change", field_name := "status",
    conditions :=
      [{ field := some "priority", operator := some "equals", value := .vstr "urgent" }],
    is_active := true }

def ticketSnap : Value :=
  .vdict (.fcons "status" (.vstr "open") (.fcons "priority" (.vstr "low") .fnil))

/-- C8 (code bug): an update leaving every field unchanged (old and new
snapshots identical, so in particular the trigger's named field `status`
is unchanged) makes `should_trigger` return `True` — the unchanged
condition field causes the condition to be skipped as satisfied, and
`field_name` is never consulted — even though the trigger's own
condition (`priority == "urgent"`) evaluates false on the snapshot.  The
signal handler therefore starts a workflow instance where the claim and
spec require the trigger to be skipped. -/
theorem c8_unchanged_field_still_triggers :
    trigFieldChange.should_trigger ticketSnap (some ticketSnap) = .ok true
    ∧ evalConditions trigFieldChange.conditions ticketSnap = .ok false := by decide

def dbEmpty : Db := { next_id := 0, instances := [] }

def swDaily : ScheduledWorkflow :=
  { id := 1, workflow := wfTicket, schedule_type := "daily", scheduled_date := 50,
    parameters := .fnil, status := "pending", last_run := none, next_run := some 90 }

def swOnce : ScheduledWorkflow :=
  { swDaily with id := 2, schedule_type := "once" }

/-- C9 (code bug): after a successful run over one matched entity, a
`daily` schedule ends with `status = 'completed'` — not reset to
`'pending'` as the claim (and `check_and_run_recurring_workflows`, which
selects only `pending` rows) requires — even though `next_run` is
recomputed as `last_run + 1 day`.  A `once` schedule ends `'completed'`
with `next_run` untouched, as claimed. -/
theorem c9_recurring_completed_not_pending :
    (swDaily.run dbEmpty 1 [(7, lowTicket)] 100).1.status = "completed"
    ∧ (swDaily.run dbEmpty 1 [(7, lowTicket)] 100).1.next_run = some (100 + oneDay)
    ∧ (swDaily.run dbEmpty 1 [(7, lowTicket)] 100).2.2 = none
    ∧ (swDaily.run dbEmpty 1 [(7, lowTicket)] 100).2.1.instances.length = 1
    ∧ (swOnce.run dbEmpty 1 [(7, lowTicket)] 100).1.status = "completed"
    ∧ (swOnce.run dbEmpty 1 [(7, lowTicket)] 100).1.next_run = some 90 := by decide

def wfNoInit : Workflow :=
  { id := 3, name := "NoInit", status := "active", model := "m.e",
    states := [], transitions := [] }

def noInitInst : WorkflowInstance :=
  { id := 0, workflow := wfNoInit, content_type := 2, object_id := 9,
    content_object := lowTicket, current_state := none, status := "active",
    completed_at := none, data := .vdict .fnil, history := [] }

/-- C6 (counterexample): starting a workflow that has no initial state
does not fail — it creates and returns an instance whose
`current_state` is null, contradicting the claimed `ConfigurationError`
with no instance created. -/
theorem c6_counterexample :
    view_start dbEmpty wfNoInit 2 9 lowTicket (.vdict .fnil) =
      .ok ({ next_id := 1, instances := [noInitInst] }, noInitInst, true)
    ∧ wfNoInit.get_initial_state = none
    ∧ noInitInst.current_state = none := by decide

/-- C6 (amended): over a table with no instance for the entity, `start`
always succeeds and creates exactly one instance, whose `current_state`
is the workflow's initial state when one exists and null otherwise (no
`ConfigurationError` is ever raised). -/
theorem c6_start_succeeds (db : Db) (w : Workflow) (ct oid : Nat) (obj d : Value)
    (hfree : ∀ i ∈ db.instances, i.content_type ≠ ct ∨ i.object_id ≠ oid) :
    ∃ db1 i1, view_start db w ct oid obj d = .ok (db1, i1, true)
      ∧ i1.current_state = w.get_initial_state
      ∧ db1.instances.length = db.instances.length + 1 := by
  have hfind : db.instances.find? (fun i =>
      i.workflow.id == w.id && i.content_type == ct && i.object_id == oid) = none := by
    rw [List.find?_eq_none]
    intro i hi
    simp only [Bool.and_eq_true, beq_iff_eq, not_and]
    rcases hfree i hi with h | h
    · intro hx
      exact absurd hx.2 h
    · intro _ hx
      exact absurd hx h
  have hany : (db.instances.any (fun i => i.content_type == ct && i.object_id == oid))
      = false := by
    rw [List.any_eq_false]
    intro i hi
    simp only [Bool.and_eq_true, beq_iff_eq, not_and]
    rcases hfree i hi with h | h
    · intro hx
      exact absurd hx h
    · intro _
      exact h
  have hgoc : get_or_create db w ct oid obj d =
      .ok ({ next_id := db.next_id + 1,
             instances := db.instances ++ [freshInstance db w ct oid obj d] },
           freshInstance db w ct oid obj d, true) := by
    simp [get_or_create, hfind, hany]
  cases hini : w.get_initial_state with
  | none =>
    refine ⟨{ next_id := db.next_id + 1,
              instances := db.instances ++ [freshInstance db w ct oid obj d] },
            freshInstance db w ct oid obj d, ?_, ?_, ?_⟩
    · simp [view_start, hgoc, hini]
    · simp [freshInstance, hini]
    · simp
  | some s0 =>
    refine ⟨dbSave
        { next_id := db.next_id + 1,
          instances := db.instances ++ [freshInstance db w ct oid obj d] }
        { freshInstance db w ct oid obj d with current_state := some s0 },
      { freshInstance db w ct oid obj d with current_state := some s0 }, ?_, ?_, ?_⟩
    · simp [view_start, hgoc, hini]
    · simp [hini]
    · simp [dbSave]

/-- Witness for the amended C6 at the scenario workflow (which has
initial state New) over an empty table. -/
theorem c6_witness :
    ∃ db1 i1, view_start dbEmpty wfTicket 1 1 lowTicket (.vdict .fnil) =
        .ok (db1, i1, true)
      ∧ i1.current_state = wfTicket.get_initial_state
      ∧ db1.instances.length = dbEmpty.instances.length + 1 :=
  c6_start_succeeds dbEmpty wfTicket 1 1 lowTicket (.vdict .fnil) (by simp [dbEmpty])

/-- C7 (counterexample): the condition evaluator is not total and a
missing field does not always fail closed: a `greater_than` guard
against a string-valued field raises an uncaught `TypeError`, and when
the field is missing altogether the resolved `None` raises `TypeError`
in the same comparison instead of evaluating false. -/
theorem c7_counterexample :
    evalConditions
        [{ field := some "x", operator := some "greater_than", value := .vint 5 }]
        (.vdict (.fcons "x" (.vstr "abc") .fnil)) = .error .typeError
    ∧ evalConditions
        [{ field := some "x", operator := some "greater_than", value := .vint 5 }]
        (.vdict .fnil) = .error .typeError := by decide

/-- C7 (amended): the evaluator is total only on the comparison-free
operators — whenever every condition uses `equals`, `not_equals`,
`is_empty` or `is_not_empty` (or has no operator) it returns a boolean
for every snapshot; the ordinal operators and `contains`/`not_contains`
can raise `TypeError`.  (A missing dict key does not short-circuit the
condition to false: it resolves to `None`, which the operator then
evaluates normally — `not_equals` and `is_empty` pass on it; only an
attribute error during the walk fails the whole check closed.) -/
theorem c7_safe_operators_total (conds : List Condition) (obj : Value)
    (h : ∀ c ∈ conds,
        c.operator = some "equals" ∨ c.operator = some "not_equals"
        ∨ c.operator = some "is_empty" ∨ c.operator = some "is_not_empty"
        ∨ c.operator = none) :
    ∃ b, evalConditions conds obj = .ok b := by
  induction conds with
  | nil => exact ⟨true, rfl⟩
  | cons c rest ih =>
    obtain ⟨b, hb⟩ := ih (fun x hx => h x (List.mem_cons_of_mem c hx))
    have hc := h c (List.mem_cons_self c rest)
    cases hcf : c.field with
    | none => exact ⟨b, by simpa [evalConditions, hcf] using hb⟩
    | some fp =>
      cases hco : c.operator with
      | none => exact ⟨b, by simpa [evalConditions, hcf, hco] using hb⟩
      | some op =>
        have hop : op = "equals" ∨ op = "not_equals" ∨ op = "is_empty"
            ∨ op = "is_not_empty" := by
          rw [hco] at hc
          rcases hc with h1 | h1 | h1 | h1 | h1 <;> simp at h1 <;> tauto
        by_cases hskip : (fp == "" || op == "") = true
        · exact ⟨b, by simpa [evalConditions, hcf, hco, hskip] using hb⟩
        · cases hgf : get_field_value obj fp with
          | error e => exact ⟨false, by simp [evalConditions, hcf, hco, hskip, hgf]⟩
          | ok fv =>
            have hcp : ∃ q, condPasses op fv c.value = .ok q := by
              rcases hop with rfl | rfl | rfl | rfl
              · exact ⟨pyEq fv c.value, rfl⟩
              · exact ⟨!pyEq fv c.value, rfl⟩
              · exact ⟨!pyTruthy fv, rfl⟩
              · exact ⟨pyTruthy fv, rfl⟩
            obtain ⟨q, hq⟩ := hcp
            cases q with
            | true => exact ⟨b, by simp [evalConditions, hcf, hco, hskip, hgf, hq, hb]⟩
            | false => exact ⟨false, by simp [evalConditions, hcf, hco, hskip, hgf, hq]⟩

/-- Witness for the amended C7: a safe-operator condition list — one
condition on a present field, one on a missing path — evaluates without
an exception. -/
theorem c7_witness :
    ∃ b, evalConditions
        [{ field := some "priority", operator := some "equals", value := .vstr "urgent" },
         { field := some "missing.path", operator := some "is_empty", value := .vnull }]
        lowTicket = .ok b :=
  c7_safe_operators_total _ lowTicket (by decide)

/-- C10: the uniqueness constraint is on `(content_type, object_id)`
alone, so `start` for a second workflow over an entity that already has
an instance of another workflow does not converge — the lookup (keyed by
workflow as well) misses, the insert violates the constraint, and the
call fails with `IntegrityError`, leaving the table unchanged. -/
theorem c10_cross_workflow_start_conflicts (db : Db) (w : Workflow) (ct oid : Nat)
    (obj d : Value) (i : WorkflowInstance)
    (hn : (db.instances.map (fun j => (j.content_type, j.object_id))).Nodup)
    (hi : i ∈ db.instances) (hct : i.content_type = ct) (hoid : i.object_id = oid)
    (hw : i.workflow.id ≠ w.id) :
    view_start db w ct oid obj d = .error .integrityError := by
  have hinj := List.inj_on_of_nodup_map hn
  have hfind : db.instances.find? (fun j =>
      j.workflow.id == w.id && j.content_type == ct && j.object_id == oid) = none := by
    rw [List.find?_eq_none]
    intro j hj
    simp only [Bool.and_eq_true, beq_iff_eq, not_and]
    rintro ⟨hjw, hjct⟩ hjoid
    have hji : j = i := hinj hj hi (by simp [hjct, hjoid, hct, hoid])
    exact hw (hji ▸ hjw)
  have hany : db.instances.any (fun j => j.content_type == ct && j.object_id == oid)
      = true := by
    rw [List.any_eq_true]
    exact ⟨i, hi, by simp [hct, hoid]⟩
  simp [view_start, get_or_create, hfind, hany]

def wfOther : Workflow :=
  { id := 2, name := "Other", status := "active", model := "m.e",
    states := [], transitions := [] }

def otherInst : WorkflowInstance :=
  { id := 5, workflow := wfOther, content_type := 1, object_id := 1,
    content_object := lowTicket, current_state := none, status := "active",
    completed_at := none, data := .vdict .fnil, history := [] }

def dbOccupied : Db := { next_id := 6, instances := [otherInst] }

/-- Witness for C10: entity `(1, 1)` already bound to workflow `Other`;
starting `Ticket Escalation` on it raises `IntegrityError`. -/
theorem c10_witness :
    view_start dbOccupied wfTicket 1 1 lowTicket (.vdict .fnil) =
      .error .integrityError :=
  c10_cross_workflow_start_conflicts dbOccupied wfTicket 1 1 lowTicket (.vdict .fnil)
    otherInst (by decide) (by decide) (by decide) (by decide) (by decide)

/-- Storage well-formedness maintained by the engine: primary keys stay
below the sequence value, and the `(content_type, object_id)` key is
unique — the `unique_together` constraint of models.py:293. -/
def DbWf (db : Db) : Prop :=
  (∀ i ∈ db.instances, i.id < db.next_id) ∧
  (db.instances.map (fun i => (i.content_type, i.object_id))).Nodup

theorem map_save_id {l : List WorkflowInstance} {inst : WorkflowInstance}
    (h : ∀ j ∈ l, j.id ≠ inst.id) :
    l.map (fun j => if j.id == inst.id then inst else j) = l := by
  induction l with
  | nil => rfl
  | cons a rest ih =>
    have ha : (a.id == inst.id) = false := by simpa using h a (by simp)
    simp only [List.map_cons, ha, Bool.false_eq_true, if_false]
    rw [ih (fun j hj => h j (List.mem_cons_of_mem a hj))]

theorem find?_append_of_none {α : Type} (l1 l2 : List α) (p : α → Bool)
    (h : l1.find? p = none) : (l1 ++ l2).find? p = l2.find? p := by
  induction l1 with
  | nil => rfl
  | cons a rest ih =>
    cases hpa : p a with
    | true => simp [List.find?, hpa] at h
    | false =>
      simp only [List.find?, hpa] at h
      simp only [List.cons_append, List.find?, hpa]
      exact ih h

theorem filter_length_one_of_key {α β : Type} [DecidableEq β] (l : List α) (key : α → β)
    (hn : (l.map key).Nodup) (p : α → Bool) (k : β)
    (hp : ∀ j, p j = true → key j = k)
    (i : α) (hi : i ∈ l) (hpi : p i = true) :
    (l.filter p).length = 1 := by
  induction l with
  | nil => cases hi
  | cons a rest ih =>
    rw [List.map_cons, List.nodup_cons] at hn
    rcases List.mem_cons.mp hi with rfl | hmem
    · rw [List.filter_cons_of_pos hpi]
      have hempty : rest.filter p = [] := by
        rw [List.filter_eq_nil_iff]
        intro j hj hpj
        exact hn.1 (List.mem_map.mpr ⟨j, hj, by rw [hp j hpj, hp i hpi]⟩)
      rw [hempty]
      rfl
    · have hpa : p a = false := by
        by_contra hpa
        rw [Bool.not_eq_false] at hpa
        exact hn.1 (List.mem_map.mpr ⟨i, hmem, by rw [hp i hpi, hp a hpa]⟩)
      rw [List.filter_cons_of_neg (by simp [hpa])]
      exact ih hn.2 hmem

/-- C5: `start` is idempotent by `(workflow, entity)` over a well-formed
table: after any successful call, an immediately repeated call for the
same workflow and entity returns the very same instance with
`created = False` and the very same table (nothing changed), and the
table holds exactly one instance for that `(workflow, entity)` pair. -/
theorem c5_start_idempotent (db : Db) (w : Workflow) (ct oid : Nat) (obj d : Value)
    (db1 : Db) (i1 : WorkflowInstance) (cr : Bool)
    (hwf : DbWf db)
    (h : view_start db w ct oid obj d = .ok (db1, i1, cr)) :
    view_start db1 w ct oid obj d = .ok (db1, i1, false)
    ∧ (db1.instances.filter (fun i =>
        i.workflow.id == w.id && i.content_type == ct && i.object_id == oid)).length
      = 1 := by
  cases hfind : db.instances.find? (fun i =>
      i.workflow.id == w.id && i.content_type == ct && i.object_id == oid) with
  | some i =>
    have hh : view_start db w ct oid obj d = .ok (db, i, false) := by
      simp [view_start, get_or_create, hfind]
    rw [hh] at h
    simp only [Except.ok.injEq, Prod.mk.injEq] at h
    obtain ⟨hdb, hi1, hcr⟩ := h
    subst hdb; subst hi1
    refine ⟨hh, ?_⟩
    have hpi : (i.workflow.id == w.id && i.content_type == ct
        && i.object_id == oid) = true :=
      @List.find?_some WorkflowInstance
        (fun j => j.workflow.id == w.id && j.content_type == ct && j.object_id == oid)
        i db.instances hfind
    exact filter_length_one_of_key db.instances (fun j => (j.content_type, j.object_id))
      hwf.2 _ (ct, oid)
      (fun j hpj => by
        simp only [Bool.and_eq_true, beq_iff_eq] at hpj
        simp [hpj.1.2, hpj.2])
      i (List.mem_of_find?_eq_some hfind) hpi
  | none =>
    cases hany : db.instances.any (fun i => i.content_type == ct && i.object_id == oid) with
    | true =>
      have hToErr : view_start db w ct oid obj d = .error .integrityError := by
        simp [view_start, get_or_create, hfind, hany]
      rw [hToErr] at h
      simp at h
    | false =>
      have hgoc : get_or_create db w ct oid obj d =
          .ok ({ next_id := db.next_id + 1,
                 instances := db.instances ++ [freshInstance db w ct oid obj d] },
               freshInstance db w ct oid obj d, true) := by
        simp [get_or_create, hfind, hany]
      have hnil : db.instances.filter (fun j => j.workflow.id == w.id &&
          j.content_type == ct && j.object_id == oid) = [] := by
        rw [List.filter_eq_nil_iff]
        intro j hj
        simpa using List.find?_eq_none.mp hfind j hj
      cases hini : w.get_initial_state with
      | none =>
        have hh : view_start db w ct oid obj d =
            .ok ({ next_id := db.next_id + 1,
                   instances := db.instances ++ [freshInstance db w ct oid obj d] },
                 freshInstance db w ct oid obj d, true) := by
          simp [view_start, hgoc, hini]
        rw [hh] at h
        simp only [Except.ok.injEq, Prod.mk.injEq] at h
        obtain ⟨hdb, hi1, hcr⟩ := h
        subst hdb; subst hi1
        have hp : (fun j : WorkflowInstance =>
            j.workflow.id == w.id && j.content_type == ct && j.object_id == oid)
              (freshInstance db w ct oid obj d) = true := by
          simp [freshInstance]
        have hfind2 : (db.instances ++ [freshInstance db w ct oid obj d]).find?
            (fun j => j.workflow.id == w.id && j.content_type == ct
              && j.object_id == oid) = some (freshInstance db w ct oid obj d) := by
          rw [find?_append_of_none _ _ _ hfind]
          simp only [List.find?, hp]
        constructor
        · simp [view_start, get_or_create, hfind2]
        · show ((db.instances ++ [freshInstance db w ct oid obj d]).filter _).length = 1
          rw [List.filter_append, hnil]
          simp [hp]
      | some s0 =>
        have hids : ∀ j ∈ db.instances,
            j.id ≠ ({ freshInstance db w ct oid obj d with
              current_state := some s0 } : WorkflowInstance).id := by
          intro j hj
          have hlt := hwf.1 j hj
          simp only [freshInstance]
          omega
        have hsave : (dbSave
            { next_id := db.next_id + 1,
              instances := db.instances ++ [freshInstance db w ct oid obj d] }
            { freshInstance db w ct oid obj d with current_state := some s0 }).instances
            = db.instances ++
              [{ freshInstance db w ct oid obj d with current_state := some s0 }] := by
          show (db.instances ++ [freshInstance db w ct oid obj d]).map _ = _
          rw [List.map_append, map_save_id hids]
          simp
        have hh : view_start db w ct oid obj d =
            .ok (dbSave
                { next_id := db.next_id + 1,
                  instances := db.instances ++ [freshInstance db w ct oid obj d] }
                { freshInstance db w ct oid obj d with current_state := some s0 },
              { freshInstance db w ct oid obj d with current_state := some s0 },
              true) := by
          simp [view_start, hgoc, hini]
        rw [hh] at h
        simp only [Except.ok.injEq, Prod.mk.injEq] at h
        obtain ⟨hdb, hi1, hcr⟩ := h
        subst hdb; subst hi1
        have hp : (fun j : WorkflowInstance =>
            j.workflow.id == w.id && j.content_type == ct && j.object_id == oid)
              ({ freshInstance db w ct oid obj d with
                current_state := some s0 } : WorkflowInstance) = true := by
          simp [freshInstance]
        have hfind2 : (dbSave
            { next_id := db.next_id + 1,
              instances := db.instances ++ [freshInstance db w ct oid obj d] }
            { freshInstance db w ct oid obj d with
              current_state := some s0 }).instances.find?
            (fun j => j.workflow.id == w.id && j.content_type == ct
              && j.object_id == oid)
            = some ({ freshInstance db w ct oid obj d with
                current_state := some s0 } : WorkflowInstance) := by
          rw [hsave, find?_append_of_none _ _ _ hfind]
          simp only [List.find?, hp]
        constructor
        · simp [view_start, get_or_create, hfind2]
        · rw [hsave, List.filter_append, hnil]
          simp [hp]

def startedFresh : WorkflowInstance :=
  { id := 0, workflow := wfTicket, content_type := 1, object_id := 1,
    content_object := lowTicket, current_state := some stNew, status := "active",
    completed_at := none, data := .vdict .fnil, history := [] }

def dbAfterStart : Db := { next_id := 1, instances := [startedFresh] }

/-- Witness for C5: start the scenario workflow on an empty table, then
start it again — the second call returns the same instance, the same
table, `created = False`, and exactly one instance exists. -/
theorem c5_witness :
    DbWf dbEmpty
    ∧ view_start dbEmpty wfTicket 1 1 lowTicket (.vdict .fnil) =
        .ok (dbAfterStart, startedFresh, true)
    ∧ (view_start dbAfterStart wfTicket 1 1 lowTicket (.vdict .fnil) =
          .ok (dbAfterStart, startedFresh, false)
       ∧ (dbAfterStart.instances.filter (fun i => i.workflow.id == wfTicket.id
            && i.content_type == 1 && i.object_id == 1)).length = 1) :=
  ⟨⟨by simp [dbEmpty], by simp [dbEmpty]⟩, by decide,
   c5_start_idempotent dbEmpty wfTicket 1 1 lowTicket (.vdict .fnil) dbAfterStart
     startedFresh true ⟨by simp [dbEmpty], by simp [dbEmpty]⟩ (by decide)⟩

end Q365
